import Mathlib

/-!
Verification development for the avtor-rs data-access layer.

The Rust sources are shallowly embedded as Lean definitions:

* src/avtor-core/src/postgres_common/core.rs —
  the query-condition algebra (QueryCondition, query_cond_to_string),
  the statement builder (create_insert_sql, create_update_sql,
  generate_select) and the parameter-binding order of the insert and
  update repository operations (insert_all_params, update_all_params).
  create_update_sql is embedded with an Option result: the source calls
  fields.split_at(1) followed by unwrap, which panics when the fields
  slice is empty; the none result models that panic.

* src/avtor-core/src/models/users.rs —
  the bootstrap transaction create_super_user, with its injected
  callables modelled as a record of result-returning functions and the
  performed calls recorded in an event trace, plus the error-collapsing
  behaviour of the production callables (find_super_user_prod,
  insert_user_prod, insert_account_prod).

* src/avtor-cli/src/migrations/migration_01.rs —
  run_migration, embedded as a function of an environment that fixes the
  outcome of each effect (transaction begin, ledger lookup, up
  statements, down statements, ledger insert, commit); the performed
  effects are recorded in an event trace.

Stateful / fallible Rust code becomes explicit result values; Rust
String formatting becomes Lean String concatenation; the i32 placeholder
counter of generate_select stays an Int.
-/

namespace Avtor

/-- Model of uuid::Uuid: an abstract identifier. -/
structure Uuid where
  mk :: (val : Nat)
deriving DecidableEq, Repr

/-- Newtype UserId(Uuid) from src/avtor-core/src/models/users.rs. -/
structure UserId where
  mk :: (val : Uuid)
deriving DecidableEq, Repr

/-- Newtype AccountId(Uuid) from src/avtor-core/src/models/users.rs. -/
structure AccountId where
  mk :: (val : Uuid)
deriving DecidableEq, Repr

/-- The User entity (entity! expansion in users.rs). -/
structure User where
  id : UserId
  username : String
  password : String
  roles : String
  account_id : Uuid
deriving DecidableEq, Repr

/-- The Account entity (entity! expansion in users.rs). -/
structure Account where
  id : AccountId
  name : String
deriving DecidableEq, Repr

/-- UserDto from users.rs: the validated bootstrap user descriptor. -/
structure UserDto where
  id : Uuid
  username : String
  password : String
  roles : String
  account_id : Uuid
deriving DecidableEq, Repr

/-- AccountDto from users.rs: the bootstrap account descriptor. -/
structure AccountDto where
  id : Uuid
  name : String
deriving DecidableEq, Repr

/-- CreateAccountError from users.rs. -/
inductive CreateAccountError where
  | RepoError (msg : String)
deriving DecidableEq, Repr

/-- The ToString impl for CreateAccountError in users.rs returns the
carried message. -/
def CreateAccountError.str : CreateAccountError → String
  | CreateAccountError.RepoError es => es

/-- CreateSuperUserError from users.rs.  The Rust HashMap of field
errors is modelled as an association list. -/
inductive CreateSuperUserError where
  | UserInvalid (m : List (String × String))
  | SuperUserExists
  | RepoError (msg : String)
  | UnknownError
  | AccountInvalid (m : List (String × String))
  | AccountExists
deriving DecidableEq, Repr

/-- QueryCondition from postgres_common/core.rs, with the ToSql trait
object abstracted into a type parameter. -/
inductive QueryCondition (α : Type) where
  | Eq (f : String) (v : α)
  | Neq (f : String) (v : α)
  | Gt (f : String) (v : α)
  | Gte (f : String) (v : α)
  | Lt (f : String) (v : α)
  | Lte (f : String) (v : α)
  | In (f : String) (v : α)
  | Nin (f : String) (v : α)
  | Like (f : String) (v : α)
  | NLike (f : String) (v : α)
deriving DecidableEq, Repr

/-- query_cond_to_string from postgres_common/core.rs, formatting each
operator exactly as the source does (note that the source renders both
Lt and Lte with the symbol <=). -/
def query_cond_to_string {α : Type} (q_cond : QueryCondition α) (n : Int) : String :=
  match q_cond with
  | QueryCondition.Eq f _ => f ++ " = $" ++ toString n
  | QueryCondition.Neq f _ => f ++ " != $" ++ toString n
  | QueryCondition.Gt f _ => f ++ " > $" ++ toString n
  | QueryCondition.Gte f _ => f ++ " >= $" ++ toString n
  | QueryCondition.Lt f _ => f ++ " <= $" ++ toString n
  | QueryCondition.Lte f _ => f ++ " <= $" ++ toString n
  | QueryCondition.In f _ => f ++ " = Any($" ++ toString n ++ ")"
  | QueryCondition.Nin f _ => f ++ " != Any($" ++ toString n ++ ")"
  | QueryCondition.Like f _ => f ++ " like $" ++ toString n
  | QueryCondition.NLike f _ => f ++ " not like $" ++ toString n

/-- The value extraction performed by the params map inside
generate_select in postgres_common/core.rs. -/
def qc_value {α : Type} : QueryCondition α → α
  | QueryCondition.Eq _ p => p
  | QueryCondition.Neq _ p => p
  | QueryCondition.Gt _ p => p
  | QueryCondition.Gte _ p => p
  | QueryCondition.Lt _ p => p
  | QueryCondition.Lte _ p => p
  | QueryCondition.In _ p => p
  | QueryCondition.Nin _ p => p
  | QueryCondition.Like _ p => p
  | QueryCondition.NLike _ p => p

/-- create_insert_sql from postgres_common/core.rs.  The Rust range
2..fields.len()+2 is List.range' 2 fields.length. -/
def create_insert_sql (table : String) (id_field : String) (fields : List String) : String :=
  let fields_sql : String := fields.foldl (fun acc x => acc ++ ", " ++ x) id_field
  let field_params : String :=
    (List.range' 2 fields.length).foldl (fun acc x => acc ++ ", $" ++ toString x) "$1"
  "insert into " ++ table ++ " (" ++ fields_sql ++ ") values (" ++ field_params ++ ")"

/-- create_update_sql from postgres_common/core.rs.  The source calls
fields.split_at(1) and unwrap, which panics when fields is empty; the
none result models that panic, and the some branch follows the source
fold over the tail starting from counter 2. -/
def create_update_sql (table : String) (id_field : String) (fields : List String) :
    Option String :=
  match fields with
  | [] => none
  | f0 :: tail =>
    let first : String := f0 ++ " = $1"
    let fields_sql : String :=
      (tail.foldl (fun (acc : String × Nat) x =>
        (acc.1 ++ " , " ++ x ++ " = $" ++ toString acc.2, acc.2 + 1)) (first, 2)).1
    some ("update " ++ table ++ " set " ++ fields_sql ++ " where " ++ id_field ++
      " = $" ++ toString (fields.length + 1))

/-- The parameter list bound by the insert operation in
postgres_common/core.rs: [&[id_param], params].concat(). -/
def insert_all_params {α : Type} (id_param : α) (params : List α) : List α :=
  [id_param] ++ params

/-- The parameter list bound by the update operation in
postgres_common/core.rs: [params, &[id_param]].concat(). -/
def update_all_params {α : Type} (params : List α) (id_param : α) : List α :=
  params ++ [id_param]

/-- generate_select from postgres_common/core.rs: the where clause is a
fold with one running Int counter starting at 1, and the parameter list
maps each condition to its carried value. -/
def generate_select {α : Type} (table : String) (query_conditions : List (QueryCondition α)) :
    String × List α :=
  let base_query : String := "select * from " ++ table
  if query_conditions.isEmpty then
    (base_query, [])
  else
    let where_part : String :=
      (query_conditions.foldl (fun (acc : String × Int) x =>
        (acc.1 ++ " and " ++ query_cond_to_string x acc.2, acc.2 + 1)) ("", 1)).1
    let query_with_where : String := base_query ++ " where 1 = 1 " ++ where_part
    (query_with_where, query_conditions.map qc_value)

/-- The validator derive on UserDto in users.rs: username length min 3
(message username_required), password length 8 to 18 (message
password_between_8_and_18_chars), roles length min 1 (message
roles_required).  The resulting field-to-message entries are collected
in field declaration order. -/
def validate_user_dto (u : UserDto) : List (String × String) :=
  (if u.username.length < 3 then [("username", "username_required")] else []) ++
  (if u.password.length < 8 ∨ 18 < u.password.length then
    [("password", "password_between_8_and_18_chars")] else []) ++
  (if u.roles.length < 1 then [("roles", "roles_required")] else [])

/-- The validator derive on AccountDto in users.rs has no field
attributes, so validation always succeeds. -/
def validate_account_dto (_ : AccountDto) : List (String × String) := []

/-- user_from_dto from users.rs. -/
def user_from_dto (dto : UserDto) : User :=
  { id := UserId.mk dto.id
    username := dto.username
    password := dto.password
    roles := dto.roles
    account_id := dto.account_id }

/-- The Account value constructed inside create_super_user in users.rs. -/
def account_of_dto (dto : AccountDto) : Account :=
  { id := AccountId.mk dto.id, name := dto.name }

/-- One observable invocation of an injected callable of
create_super_user. -/
inductive BootEvent where
  | findSuperUser
  | findAccountById
  | insertAccount
  | insertUser
deriving DecidableEq, Repr

/-- The four injected single-use callables of create_super_user in
users.rs, modelled as deterministic result-returning functions. -/
structure BootstrapCalls where
  find_super_user : Except CreateSuperUserError (Option User)
  insert_user : User → Except CreateSuperUserError Unit
  insert_account : Account → Except CreateAccountError Unit
  find_account_by_id : AccountId → Except CreateAccountError (Option Account)

/-- create_super_user from users.rs, returning the result together with
the trace of callable invocations in the order they are performed:
validate user, validate account, find_super_user, find_account_by_id,
insert_account, insert_user, each step gated on the previous one. -/
def create_super_user (c : BootstrapCalls) (user_dto : UserDto) (account_dto : AccountDto) :
    Except CreateSuperUserError Unit × List BootEvent :=
  match validate_user_dto user_dto with
  | e :: es => (Except.error (CreateSuperUserError.UserInvalid (e :: es)), [])
  | [] =>
    match validate_account_dto account_dto with
    | e :: es => (Except.error (CreateSuperUserError.AccountInvalid (e :: es)), [])
    | [] =>
      let user := user_from_dto user_dto
      match c.find_super_user with
      | Except.error err => (Except.error err, [BootEvent.findSuperUser])
      | Except.ok (some _) =>
        (Except.error CreateSuperUserError.SuperUserExists, [BootEvent.findSuperUser])
      | Except.ok none =>
        match c.find_account_by_id (AccountId.mk account_dto.id) with
        | Except.error e =>
          (Except.error (CreateSuperUserError.RepoError e.str),
            [BootEvent.findSuperUser, BootEvent.findAccountById])
        | Except.ok (some _) =>
          (Except.error CreateSuperUserError.AccountExists,
            [BootEvent.findSuperUser, BootEvent.findAccountById])
        | Except.ok none =>
          match c.insert_account (account_of_dto account_dto) with
          | Except.error e =>
            (Except.error (CreateSuperUserError.RepoError e.str),
              [BootEvent.findSuperUser, BootEvent.findAccountById, BootEvent.insertAccount])
          | Except.ok _ =>
            match c.insert_user user with
            | Except.error e =>
              (Except.error e,
                [BootEvent.findSuperUser, BootEvent.findAccountById,
                  BootEvent.insertAccount, BootEvent.insertUser])
            | Except.ok _ =>
              (Except.ok (),
                [BootEvent.findSuperUser, BootEvent.findAccountById,
                  BootEvent.insertAccount, BootEvent.insertUser])

/-- The error collapsing performed by the production find_super_user in
users.rs: map_err discards the driver error and produces RepoError with
an empty message. -/
def find_super_user_prod (driver : Except String (Option User)) :
    Except CreateSuperUserError (Option User) :=
  match driver with
  | Except.ok v => Except.ok v
  | Except.error _ => Except.error (CreateSuperUserError.RepoError "")

/-- The error collapsing performed by the production insert_user in
users.rs: map_err discards the driver error and produces RepoError with
an empty message. -/
def insert_user_prod (driver : Except String Unit) : Except CreateSuperUserError Unit :=
  match driver with
  | Except.ok v => Except.ok v
  | Except.error _ => Except.error (CreateSuperUserError.RepoError "")

/-- The error collapsing performed by the production insert_account in
users.rs: map_err discards the driver error and produces RepoError with
an empty message. -/
def insert_account_prod (driver : Except String Unit) : Except CreateAccountError Unit :=
  match driver with
  | Except.ok v => Except.ok v
  | Except.error _ => Except.error (CreateAccountError.RepoError "")

/-- The Migration entity from src/avtor-core/src/models/migrations.rs,
with the NaiveDateTime timestamp abstracted to an Int. -/
structure Migration where
  id : Uuid
  name : String
  seq_order : Int
  up : String
  down : String
  applied_on : Int
deriving DecidableEq, Repr

/-- One observable effect of run_migration in
src/avtor-cli/src/migrations/migration_01.rs. -/
inductive MigEvent where
  | beginTx
  | findOne
  | runUp
  | runDown
  | createLedger
  | commitTx
deriving DecidableEq, Repr

/-- The outcomes of the effects performed by run_migration in
migration_01.rs, fixed up front: transaction begin, ledger lookup for
seq_order 1, the two up statements, the down statements (whose error
type is unit, as in run_migrations_down), the ledger insert, and the
commit. -/
structure MigrationEnv where
  begin_result : Except String Unit
  find_one_result : Except String (Option Migration)
  up_result : Except String Unit
  down_result : Except Unit Unit
  create_result : Except String Unit
  commit_result : Except String Unit

/-- run_migration from migration_01.rs, returning the result together
with the trace of effects.  Control flow follows the source exactly: a
begin or lookup error propagates; a found ledger record short-circuits
to commit; on up failure the downs are attempted and both down outcomes
produce Ok, so only the commit can fail on that path; on up success the
ledger record is created and the transaction committed. -/
def run_migration (env : MigrationEnv) : Except String Unit × List MigEvent :=
  match env.begin_result with
  | Except.error e => (Except.error e, [MigEvent.beginTx])
  | Except.ok _ =>
    match env.find_one_result with
    | Except.error e => (Except.error e, [MigEvent.beginTx, MigEvent.findOne])
    | Except.ok (some _) =>
      match env.commit_result with
      | Except.error e =>
        (Except.error e, [MigEvent.beginTx, MigEvent.findOne, MigEvent.commitTx])
      | Except.ok _ =>
        (Except.ok (), [MigEvent.beginTx, MigEvent.findOne, MigEvent.commitTx])
    | Except.ok none =>
      match env.up_result with
      | Except.error _ =>
        match env.commit_result with
        | Except.error e =>
          (Except.error e,
            [MigEvent.beginTx, MigEvent.findOne, MigEvent.runUp,
              MigEvent.runDown, MigEvent.commitTx])
        | Except.ok _ =>
          (Except.ok (),
            [MigEvent.beginTx, MigEvent.findOne, MigEvent.runUp,
              MigEvent.runDown, MigEvent.commitTx])
      | Except.ok _ =>
        match env.create_result with
        | Except.error e =>
          (Except.error e,
            [MigEvent.beginTx, MigEvent.findOne, MigEvent.runUp, MigEvent.createLedger])
        | Except.ok _ =>
          match env.commit_result with
          | Except.error e =>
            (Except.error e,
              [MigEvent.beginTx, MigEvent.findOne, MigEvent.runUp,
                MigEvent.createLedger, MigEvent.commitTx])
          | Except.ok _ =>
            (Except.ok (),
              [MigEvent.beginTx, MigEvent.findOne, MigEvent.runUp,
                MigEvent.createLedger, MigEvent.commitTx])

/-- Concatenation of a list of strings, spec-side helper. -/
def strJoin : List String → String
  | [] => ""
  | x :: xs => x ++ strJoin xs

/-- Interleave a separator between list elements, spec-side helper. -/
def sepJoin (sep : String) : List String → String
  | [] => ""
  | x :: xs => x ++ strJoin (xs.map (fun y => sep ++ y))

/-- The placeholder strings paired with the first k positions. -/
def placeholderStrings (k : Nat) : List String :=
  (List.range' 1 k).map (fun i => "$" ++ toString i)

/-- One rendered set-clause assignment of the update statement: the
field at 0-based position i is assigned placeholder i+1. -/
def asgnString (p : Nat × String) : String :=
  p.2 ++ " = $" ++ toString (p.1 + 1)

theorem foldl_comma (xs : List String) (init : String) :
    xs.foldl (fun acc x => acc ++ ", " ++ x) init
      = init ++ strJoin (xs.map (fun x => ", " ++ x)) := by
  induction xs generalizing init with
  | nil => simp [strJoin]
  | cons x xs ih =>
    simp only [List.foldl_cons, List.map_cons, strJoin]
    rw [ih]
    simp [String.append_assoc]

theorem foldl_comma_dollar (l : List Nat) (init : String) :
    l.foldl (fun acc x => acc ++ ", $" ++ toString x) init
      = init ++ strJoin (l.map (fun x => ", " ++ ("$" ++ toString x))) := by
  induction l generalizing init with
  | nil => simp [strJoin]
  | cons x xs ih =>
    simp only [List.foldl_cons, List.map_cons, strJoin]
    rw [ih]
    have h : (", " : String) ++ "$" = ", $" := rfl
    simp only [← String.append_assoc]
    rw [String.append_assoc init ", " "$", h]

theorem placeholderStrings_succ (k : Nat) :
    placeholderStrings (k + 1) = "$1" :: (List.range' 2 k).map (fun i => "$" ++ toString i) := by
  have h1 : ("$" : String) ++ toString (1 : Nat) = "$1" := rfl
  simp [placeholderStrings, List.range'_succ, h1]

theorem foldl_set_clause (l : List String) (k : Nat) (s : String) :
    (l.foldl (fun (acc : String × Nat) x =>
        (acc.1 ++ " , " ++ x ++ " = $" ++ toString acc.2, acc.2 + 1)) (s, k + 2)).1
      = s ++ strJoin ((l.enumFrom (k + 1)).map (fun p => " , " ++ asgnString p)) := by
  induction l generalizing k s with
  | nil => simp [strJoin]
  | cons x xs ih =>
    simp only [List.foldl_cons, List.enumFrom_cons, List.map_cons, strJoin]
    have h2 : k + 2 + 1 = (k + 1) + 2 := by omega
    rw [h2, ih (k + 1)]
    simp [asgnString, String.append_assoc]

theorem foldl_set_clause_two (l : List String) (s : String) :
    (l.foldl (fun (acc : String × Nat) x =>
        (acc.1 ++ " , " ++ x ++ " = $" ++ toString acc.2, acc.2 + 1)) (s, 2)).1
      = s ++ strJoin ((l.enumFrom 1).map (fun p => " , " ++ asgnString p)) := by
  have h := foldl_set_clause l 0 s
  simpa using h

theorem foldl_where_clause {α : Type} (l : List (QueryCondition α)) (k : Nat) (s : String) :
    (l.foldl (fun (acc : String × Int) x =>
        (acc.1 ++ " and " ++ query_cond_to_string x acc.2, acc.2 + 1)) (s, (k : Int) + 1)).1
      = s ++ strJoin ((l.enumFrom k).map
          (fun p => " and " ++ query_cond_to_string p.2 ((p.1 : Int) + 1))) := by
  induction l generalizing k s with
  | nil => simp [strJoin]
  | cons x xs ih =>
    simp only [List.foldl_cons, List.enumFrom_cons, List.map_cons, strJoin]
    have h2 : ((k : Int) + 1) + 1 = ((k + 1 : Nat) : Int) + 1 := by push_cast; ring
    rw [h2, ih (k + 1)]
    simp [String.append_assoc]

theorem foldl_where_clause_one {α : Type} (l : List (QueryCondition α)) (s : String) :
    (l.foldl (fun (acc : String × Int) x =>
        (acc.1 ++ " and " ++ query_cond_to_string x acc.2, acc.2 + 1)) (s, 1)).1
      = s ++ strJoin (l.enum.map
          (fun p => " and " ++ query_cond_to_string p.2 ((p.1 : Int) + 1))) := by
  have h := foldl_where_clause l 0 s
  simpa [List.enum] using h

/-- C8: for every table, id field and list of k non-id fields,
create_insert_sql lists the id column first followed by the k fields in
declared order, renders exactly k+1 value placeholders $1..$(k+1), and
the insert operation binds exactly k+1 parameters with the id value
first (bound to $1) and the field values following in declared order. -/
theorem create_insert_sql_spec {α : Type} (table id_field : String) (fields : List String)
    (id_param : α) (params : List α) :
    create_insert_sql table id_field fields =
      "insert into " ++ table ++ " (" ++ sepJoin ", " (id_field :: fields) ++ ") values ("
        ++ sepJoin ", " (placeholderStrings (fields.length + 1)) ++ ")" ∧
    insert_all_params id_param params = id_param :: params ∧
    (insert_all_params id_param params).length = params.length + 1 := by
  refine ⟨?_, rfl, by simp [insert_all_params]⟩
  simp only [create_insert_sql]
  rw [foldl_comma, foldl_comma_dollar, placeholderStrings_succ]
  simp [sepJoin, List.map_map, Function.comp_def]

/-- C9: for every table, id field and non-empty field list f0 :: rest
of length k, create_update_sql assigns placeholders $1..$k to the
fields in declared order and compares the id field to $(k+1) in the
where clause, and the update operation binds the k field values first
and the id value last, as parameter k+1. -/
theorem create_update_sql_spec {α : Type} (table id_field f0 : String) (rest : List String)
    (id_param : α) (params : List α) :
    create_update_sql table id_field (f0 :: rest) =
      some ("update " ++ table ++ " set "
        ++ sepJoin " , " (((f0 :: rest).enum).map asgnString)
        ++ " where " ++ id_field ++ " = $" ++ toString ((f0 :: rest).length + 1)) ∧
    update_all_params params id_param = params ++ [id_param] ∧
    (update_all_params params id_param).length = params.length + 1 ∧
    (update_all_params params id_param).getLast? = some id_param := by
  refine ⟨?_, rfl, by simp [update_all_params], by simp [update_all_params]⟩
  simp only [create_update_sql]
  rw [foldl_set_clause_two]
  have hx : (" = $" : String) ++ toString (0 + 1 : Nat) = " = $1" := rfl
  have h1 : asgnString (0, f0) = f0 ++ " = $1" := by
    simp only [asgnString, String.append_assoc, hx]
  simp [sepJoin, List.enum_cons, List.map_map, Function.comp_def, h1, String.append_assoc]

/-- C10: create_update_sql is not total at an empty field list: the
source panics there (split_at(1) on an empty slice), modelled by the
none result, and it returns a statement on every non-empty field
list. -/
theorem create_update_sql_empty_fields (table id_field : String) :
    create_update_sql table id_field [] = none ∧
    ∀ (f0 : String) (rest : List String),
      (create_update_sql table id_field (f0 :: rest)).isSome := by
  exact ⟨rfl, fun f0 rest => rfl⟩

/-- C7: generate_select with an empty condition list returns exactly
the base select with an empty parameter list; with N conditions it
returns the base select followed by a where 1 = 1 clause ANDing one
rendered fragment per condition in original list order, the fragment of
the condition at 0-based position i carrying placeholder index i+1
(so placeholders are exactly $1..$N, no gaps or repeats), and the
parameter list maps each condition to its value, in order. -/
theorem generate_select_spec {α : Type} (table : String) (conds : List (QueryCondition α)) :
    (conds = [] → generate_select table conds = ("select * from " ++ table, [])) ∧
    (conds ≠ [] →
      generate_select table conds =
        ("select * from " ++ table ++ " where 1 = 1 "
          ++ strJoin (conds.enum.map
              (fun p => " and " ++ query_cond_to_string p.2 ((p.1 : Int) + 1))),
          conds.map qc_value)) := by
  constructor
  · intro h
    subst h
    simp [generate_select]
  · intro h
    have hne : conds.isEmpty = false := by
      cases conds with
      | nil => exact absurd rfl h
      | cons x xs => rfl
    simp only [generate_select, hne, Bool.false_eq_true, if_false]
    rw [foldl_where_clause_one]
    simp [String.append_assoc]

/-- Witness for C7 at a concrete table and one-element and empty
condition lists. -/
theorem generate_select_spec_witness :
    generate_select "users" [QueryCondition.Eq "id" (5 : Nat)]
      = ("select * from users where 1 = 1  and id = $1", [5]) ∧
    generate_select "users" ([] : List (QueryCondition Nat)) = ("select * from users", []) := by
  constructor
  · have h := (generate_select_spec "users" [QueryCondition.Eq "id" (5 : Nat)]).2 (by decide)
    exact h.trans (by decide)
  · have h := (generate_select_spec "users" ([] : List (QueryCondition Nat))).1 rfl
    exact h.trans (by decide)

/-- C2 (code bug): in query_cond_to_string the Lt operator is rendered
with the symbol <=, exactly as Lte, instead of a strict less-than
comparison; evaluated here at the failing input Lt("age", v) with
placeholder index 1. -/
theorem query_cond_lt_rendered_as_lte :
    query_cond_to_string (QueryCondition.Lt "age" (0 : Nat)) 1 = "age <= $1" ∧
    query_cond_to_string (QueryCondition.Lt "age" (0 : Nat)) 1
      = query_cond_to_string (QueryCondition.Lte "age" (0 : Nat)) 1 := by
  exact ⟨by decide, by decide⟩

/-- C3 (code bug): the production callables find_super_user,
insert_user and insert_account all collapse a driver failure into
RepoError with an empty message, discarding the non-empty diagnostic of
the underlying error; evaluated at the failing driver error
"connection refused". -/
theorem repo_error_message_discarded :
    find_super_user_prod (Except.error "connection refused")
      = Except.error (CreateSuperUserError.RepoError "") ∧
    insert_user_prod (Except.error "connection refused")
      = Except.error (CreateSuperUserError.RepoError "") ∧
    insert_account_prod (Except.error "connection refused")
      = Except.error (CreateAccountError.RepoError "") ∧
    ("connection refused" : String) ≠ "" := by
  exact ⟨rfl, rfl, rfl, by decide⟩

/-- C4: with a valid user descriptor, no existing superuser, no
existing account with the given id, and both inserts succeeding,
create_super_user returns success and its invocation trace is exactly
find-superuser, find-account-by-id, insert-account, insert-user — each
callable exactly once, in that order. -/
theorem create_super_user_happy_path (c : BootstrapCalls) (u : UserDto) (a : AccountDto)
    (hval : validate_user_dto u = [])
    (hsu : c.find_super_user = Except.ok none)
    (hacc : c.find_account_by_id (AccountId.mk a.id) = Except.ok none)
    (hia : c.insert_account (account_of_dto a) = Except.ok ())
    (hiu : c.insert_user (user_from_dto u) = Except.ok ()) :
    create_super_user c u a =
      (Except.ok (), [BootEvent.findSuperUser, BootEvent.findAccountById,
        BootEvent.insertAccount, BootEvent.insertUser]) := by
  simp [create_super_user, hval, validate_account_dto, hsu, hacc, hia, hiu]

/-- Deterministic stand-in: all lookups find nothing, all inserts
succeed. -/
def callsAllOk : BootstrapCalls :=
  BootstrapCalls.mk (Except.ok none) (fun _ => Except.ok ()) (fun _ => Except.ok ())
    (fun _ => Except.ok none)

/-- A valid bootstrap user descriptor, mirroring the fixture of the
users.rs test module. -/
def userDtoOk : UserDto :=
  UserDto.mk (Uuid.mk 1) "someusername" "!Q2w3e4r5t" "super_user" (Uuid.mk 2)

/-- A bootstrap account descriptor, mirroring the fixture of the
users.rs test module. -/
def accountDtoOk : AccountDto := AccountDto.mk (Uuid.mk 3) "edb"

/-- Witness for C4 at the concrete fixture. -/
theorem create_super_user_happy_path_witness :
    create_super_user callsAllOk userDtoOk accountDtoOk =
      (Except.ok (), [BootEvent.findSuperUser, BootEvent.findAccountById,
        BootEvent.insertAccount, BootEvent.insertUser]) :=
  create_super_user_happy_path callsAllOk userDtoOk accountDtoOk (by decide) rfl rfl rfl rfl

/-- C5: with a valid user descriptor, a conflict detected by a read
short-circuits: if the find-superuser callable returns an existing
user, create_super_user returns the SuperUserExists tag with trace
exactly the one lookup; if it returns none and the find-account-by-id
callable returns an existing account, create_super_user returns the
distinct AccountExists tag with trace exactly the two lookups; neither
trace contains an insert event. -/
theorem create_super_user_conflicts (c : BootstrapCalls) (u : UserDto) (a : AccountDto)
    (hval : validate_user_dto u = []) :
    (∀ usr : User, c.find_super_user = Except.ok (some usr) →
      create_super_user c u a
        = (Except.error CreateSuperUserError.SuperUserExists, [BootEvent.findSuperUser])) ∧
    (∀ acct : Account, c.find_super_user = Except.ok none →
      c.find_account_by_id (AccountId.mk a.id) = Except.ok (some acct) →
      create_super_user c u a
        = (Except.error CreateSuperUserError.AccountExists,
            [BootEvent.findSuperUser, BootEvent.findAccountById])) ∧
    BootEvent.insertAccount ∉ [BootEvent.findSuperUser, BootEvent.findAccountById] ∧
    BootEvent.insertUser ∉ [BootEvent.findSuperUser, BootEvent.findAccountById] := by
  refine ⟨?_, ?_, by decide, by decide⟩
  · intro usr hsu
    simp [create_super_user, hval, validate_account_dto, hsu]
  · intro acct hsu hacc
    simp [create_super_user, hval, validate_account_dto, hsu, hacc]

/-- Stand-in whose superuser lookup finds an existing user. -/
def callsSuFound : BootstrapCalls :=
  BootstrapCalls.mk
    (Except.ok (some (User.mk (UserId.mk (Uuid.mk 9)) "root" "rootpw" "super_admin" (Uuid.mk 2))))
    (fun _ => Except.ok ()) (fun _ => Except.ok ()) (fun _ => Except.ok none)

/-- Stand-in whose account lookup finds an existing account. -/
def callsAcctFound : BootstrapCalls :=
  BootstrapCalls.mk (Except.ok none) (fun _ => Except.ok ()) (fun _ => Except.ok ())
    (fun _ => Except.ok (some (Account.mk (AccountId.mk (Uuid.mk 3)) "edb")))

/-- Witness for C5 at the two concrete conflict stand-ins. -/
theorem create_super_user_conflicts_witness :
    create_super_user callsSuFound userDtoOk accountDtoOk
      = (Except.error CreateSuperUserError.SuperUserExists, [BootEvent.findSuperUser]) ∧
    create_super_user callsAcctFound userDtoOk accountDtoOk
      = (Except.error CreateSuperUserError.AccountExists,
          [BootEvent.findSuperUser, BootEvent.findAccountById]) :=
  ⟨(create_super_user_conflicts callsSuFound userDtoOk accountDtoOk (by decide)).1
      (User.mk (UserId.mk (Uuid.mk 9)) "root" "rootpw" "super_admin" (Uuid.mk 2)) rfl,
    ((create_super_user_conflicts callsAcctFound userDtoOk accountDtoOk (by decide)).2).1
      (Account.mk (AccountId.mk (Uuid.mk 3)) "edb") rfl rfl⟩

/-- C6: for every invalid user descriptor (username shorter than 3,
password length outside 8..18, or empty roles), create_super_user
returns UserInvalid carrying a non-empty field-to-message map and its
invocation trace is empty: no lookup and no insert callable is ever
invoked. -/
theorem create_super_user_invalid_user (c : BootstrapCalls) (u : UserDto) (a : AccountDto)
    (h : u.username.length < 3 ∨ u.password.length < 8 ∨ 18 < u.password.length ∨
      u.roles.length = 0) :
    ∃ m : List (String × String), m ≠ [] ∧
      create_super_user c u a = (Except.error (CreateSuperUserError.UserInvalid m), []) := by
  have hne : validate_user_dto u ≠ [] := by
    unfold validate_user_dto
    rcases h with h | h | h | h
    · rw [if_pos h]
      simp [List.append_eq_nil]
    · rw [if_pos (Or.inl h)]
      simp [List.append_eq_nil]
    · rw [if_pos (Or.inr h)]
      simp [List.append_eq_nil]
    · have hr : u.roles.length < 1 := by omega
      rw [if_pos hr]
      simp [List.append_eq_nil]
  cases hv : validate_user_dto u with
  | nil => exact absurd hv hne
  | cons e es =>
    refine ⟨e :: es, by simp, ?_⟩
    simp [create_super_user, hv]

/-- An invalid bootstrap user descriptor: empty username. -/
def userDtoBad : UserDto :=
  UserDto.mk (Uuid.mk 1) "" "!Q2w3e4r5t" "super_user" (Uuid.mk 2)

/-- Witness for C6 at a concrete invalid descriptor. -/
theorem create_super_user_invalid_user_witness :
    ∃ m : List (String × String), m ≠ [] ∧
      create_super_user callsAllOk userDtoBad accountDtoOk
        = (Except.error (CreateSuperUserError.UserInvalid m), []) :=
  create_super_user_invalid_user callsAllOk userDtoBad accountDtoOk (Or.inl (by decide))

/-- An environment in which the ledger lookup finds no record, the up
statements fail with a diagnostic, the down statements also fail, and
begin and commit succeed. -/
def envUpFail : MigrationEnv :=
  MigrationEnv.mk (Except.ok ()) (Except.ok none) (Except.error "up failed")
    (Except.error ()) (Except.ok ()) (Except.ok ())

/-- C1 counterexample: in an environment whose up statements fail with
the error "up failed", run_migration attempts the downs but reports
success (ok) to its caller, not the failure of the up step — refuting
the claim that the overall result is still the up failure. -/
theorem run_migration_up_failure_reports_ok :
    envUpFail.up_result = Except.error "up failed" ∧
    run_migration envUpFail
      = (Except.ok (), [MigEvent.beginTx, MigEvent.findOne, MigEvent.runUp,
          MigEvent.runDown, MigEvent.commitTx]) := by
  exact ⟨rfl, rfl⟩

/-- C1 (amended): whenever the up statements fail, run_migration
attempts the down statements as best-effort cleanup and swallows any
cleanup error, but it also swallows the up failure itself: the result
reported to the caller is the outcome of the final commit (success when
commit succeeds), independent of both the up error and the down
outcome. -/
theorem run_migration_up_failure_swallowed (env : MigrationEnv) (e : String)
    (hb : env.begin_result = Except.ok ())
    (hf : env.find_one_result = Except.ok none)
    (hu : env.up_result = Except.error e) :
    run_migration env
      = (env.commit_result,
          [MigEvent.beginTx, MigEvent.findOne, MigEvent.runUp,
            MigEvent.runDown, MigEvent.commitTx]) := by
  cases hc : env.commit_result with
  | error ce => simp [run_migration, hb, hf, hu, hc]
  | ok u =>
    cases u
    simp [run_migration, hb, hf, hu, hc]

/-- Witness for the amended C1 theorem at the concrete failing
environment. -/
theorem run_migration_up_failure_swallowed_witness :
    run_migration envUpFail
      = (envUpFail.commit_result,
          [MigEvent.beginTx, MigEvent.findOne, MigEvent.runUp,
            MigEvent.runDown, MigEvent.commitTx]) :=
  run_migration_up_failure_swallowed envUpFail "up failed" rfl rfl rfl

end Avtor
